import Mathlib

/-!
# Gesture classifier of `Eclipse/controller_final.c`

A shallow embedding of the ACT/INACT state machine of the controller:
the global variables become the fields of `State`, every C function that
reads or writes them becomes a function on `State`, and text written with
`putchar`/`printf` is appended to the field `stdout`.

`alt_32` and `int` are 32-bit two's-complement integers on the target.  They
are represented by `Int`, and the result of every multiplication and negation
that the classifier performs on a reading or a coefficient is reduced to the
signed 32-bit range by `wrap32`, as the compiled code does.  Array indices are
`Fin 3` / `Fin 2`, the valid indices of the three-row tables of the source.
-/

namespace Netflicks

/-! ## Constants and C primitives -/

/-- The macro `THRESHOLD_1G`: the reading that corresponds to 1 g. -/
def THRESHOLD_1G : Int := 255

/-- The macro `INACT_SAMPLES`. -/
def INACT_SAMPLES : Int := 1000

/-- The value is representable as a signed 32-bit integer. -/
def InRange32 (x : Int) : Prop := -2147483648 ≤ x ∧ x ≤ 2147483647

instance (x : Int) : Decidable (InRange32 x) := by
  unfold InRange32
  infer_instance

/-- Reduction of an integer to the signed 32-bit range, modulo `2 ^ 32`. -/
def wrap32 (x : Int) : Int := (x + 2147483648) % 4294967296 - 2147483648

/-- The C library function `abs` on a 32-bit `int`: the negation wraps, so that
`abs(-2147483648)` is `-2147483648`. -/
def abs (x : Int) : Int := if x < 0 then wrap32 (-x) else x

/-- The C operator `!` on an `int`. -/
def lnot (x : Int) : Int := if x = 0 then 1 else 0

/-! ## Global state -/

/-- The global variables of the program, and the text written to standard output. -/
structure State where
  /-- The array of readings for each axis. -/
  xyz : Fin 3 → Int
  /-- The readings of the previous classified tick. -/
  xyz_prev : Fin 3 → Int
  /-- Activation coefficients, per axis and direction (column 0 positive, column 1 negative). -/
  act_thresh_coef : Fin 3 → Fin 2 → Int
  /-- Deactivation coefficients, per axis. -/
  inact_thresh_coef : Fin 3 → Int
  /-- Output characters, per axis and direction. -/
  output : Fin 3 → Fin 2 → Char
  /-- The LED counter, an `alt_u8`. -/
  led : Nat
  /-- The flag set by the timer interrupt service routine. -/
  timer_f : Int
  /-- The enable flag: nonzero while gestures may be detected. -/
  en_f : Int
  /-- The count of consecutive quiet samples. -/
  inact_counter : Int
  /-- The first candidate axis of `max` and `min`. -/
  nox : Fin 3
  /-- The characters written to standard output so far, oldest first. -/
  stdout : List Char

/-- The initial values of the global variables. -/
def init : State where
  xyz := ![0, 0, 0]
  xyz_prev := ![0, 0, 0]
  act_thresh_coef := ![![12, 12], ![13, 11], ![11, 13]]
  inact_thresh_coef := ![2, 2, 2]
  output := ![!['F', 'B'], !['U', 'D'], !['L', 'R']]
  led := 1
  timer_f := 0
  en_f := 1
  inact_counter := 0
  nox := 1
  stdout := []

/-- The state when `main` enters its loop: `printf("hello")` has run. -/
def startup : State := { init with stdout := init.stdout ++ "hello".toList }

/-! ## Functions of the source -/

/-- The routine `sys_timer_isr`: the interrupt service routine raises the tick flag. -/
def sys_timer_isr (st : State) : State := { st with timer_f := 1 }

/-- The routine `shift_xyz`: copy the current sample into the history, index by index. -/
def shift_xyz (st : State) : State :=
  ([0, 1, 2] : List (Fin 3)).foldl
    (fun s i => { s with xyz_prev := Function.update s.xyz_prev i (s.xyz i) }) st

/-- The function `max`: scan axes 1 and 2, starting from axis `nox`, keeping the
index of the strictly largest magnitude met so far. -/
def max (st : State) : Fin 3 :=
  (([1, 2] : List (Fin 3)).foldl
    (fun (acc : Int × Fin 3) i =>
      if abs (st.xyz i) > acc.1 then (abs (st.xyz i), i) else acc)
    (abs (st.xyz st.nox), st.nox)).2

/-- The function `min`: scan axes 1 and 2, starting from axis `nox`, keeping the
index of the strictly smallest magnitude met so far. -/
def min (st : State) : Fin 3 :=
  (([1, 2] : List (Fin 3)).foldl
    (fun (acc : Int × Fin 3) i =>
      if abs (st.xyz i) < acc.1 then (abs (st.xyz i), i) else acc)
    (abs (st.xyz st.nox), st.nox)).2

/-- The effect of `putchar(c); printf("\n"); led++`. -/
def emit (st : State) (c : Char) : State :=
  { st with stdout := st.stdout ++ [c, '\n'], led := (st.led + 1) % 256 }

/-- The function `detect_ACT`: the returned `int` and the state it leaves. -/
def detect_ACT (st : State) : Int × State :=
  let i := max st
  if wrap32 (st.xyz i * 10) > wrap32 (st.act_thresh_coef i 0 * THRESHOLD_1G) then
    (1, emit st (st.output i 0))
  else if wrap32 (st.xyz i * 10)
      < wrap32 (-(wrap32 (st.act_thresh_coef i 1 * THRESHOLD_1G))) then
    (1, emit st (st.output i 1))
  else
    (0, st)

/-- The function `detect_INACT`. -/
def detect_INACT (st : State) (i : Fin 3) : Int :=
  if wrap32 (abs (st.xyz i) * 10) < wrap32 (st.inact_thresh_coef i * THRESHOLD_1G)
  then 1 else 0

/-- The function `wait_INACT`: the returned `int` and the state it leaves. -/
def wait_INACT (st : State) : Int × State :=
  let i := min st
  if st.inact_counter < INACT_SAMPLES then
    if detect_INACT st i ≠ 0 then
      (0, { st with inact_counter := st.inact_counter + 1 })
    else
      (0, { st with inact_counter := 0 })
  else
    (1, { st with inact_counter := 0 })

/-- The classifier step of the loop of `main`:
`if (timer_f & en_f) {...} else if (!en_f) {...}`. -/
def main_classifier_step (st : State) : State :=
  if Int.land st.timer_f st.en_f ≠ 0 then
    let r := detect_ACT st
    let st1 := { r.2 with en_f := lnot r.1 }
    let st2 := shift_xyz st1
    { st2 with timer_f := 0 }
  else if lnot st.en_f ≠ 0 then
    let r := wait_INACT st
    { r.2 with en_f := r.1 }
  else
    st

/-- What one iteration of the loop of `main` receives from outside: whether the
timer interrupt has fired since the previous iteration, and the filtered reading
that the iteration stores in `xyz`. -/
structure Input where
  /-- The timer interrupt fired. -/
  tick : Bool
  /-- The filtered reading. -/
  sample : Fin 3 → Int

/-- The part of an iteration that comes before the classifier step: the interrupt
service routine runs if the timer fired, and the filtered reading is stored in `xyz`. -/
def receive (st : State) (inp : Input) : State :=
  let st1 := if inp.tick then sys_timer_isr st else st
  { st1 with xyz := inp.sample }

/-- One iteration of the loop of `main`, up to and including the classifier step.  The
rest of the iteration writes to the display, to the LED register and to the serial
stream `fp`; it neither reads nor writes the classifier state and does not call
`putchar` or `printf`. -/
def main_iteration (st : State) (inp : Input) : State :=
  main_classifier_step (receive st inp)

/-- The loop of `main` run over a finite list of inputs. -/
def run (st : State) (inps : List Input) : State :=
  inps.foldl main_iteration st

/-! ## Concrete states used in the scenarios -/

/-- The state of Scenario 1: Armed with a tick pending, axis 0 excluded, the positive
coefficient of axis 1 set to 12, and the sample `{0, 3000, 0}`. -/
def scenario1 : State :=
  { init with
    xyz := ![0, 3000, 0]
    act_thresh_coef := ![![12, 12], ![12, 11], ![11, 13]]
    timer_f := 1 }

/-- An Armed state with a tick pending, the coefficients of the source, and the sample
`{0, 300, 0}`. -/
def calm_armed : State := { init with xyz := ![0, 300, 0], timer_f := 1 }

/-- A state of Scenario 2: Settling, counter `INACT_SAMPLES - 1`, and a motionless sample. -/
def scenario2 : State :=
  { init with en_f := 0, inact_counter := INACT_SAMPLES - 1, xyz := ![0, 0, 0] }

/-- The state of Scenario 3: Settling, counter 5, and a sample that is not quiet. -/
def scenario3 : State :=
  { init with en_f := 0, inact_counter := 5, xyz := ![0, 3000, 3000] }

/-- A Settling state whose counter has reached `INACT_SAMPLES`, with a sample that is
not quiet. -/
def full_counter_moving : State :=
  { init with en_f := 0, inact_counter := INACT_SAMPLES, xyz := ![0, 3000, 3000] }

/-- A Settling state with counter 5 and a motionless sample. -/
def settling_quiet : State :=
  { init with en_f := 0, inact_counter := 5, xyz := ![0, 0, 0] }

/-- A Settling state whose counter has reached `INACT_SAMPLES`, with a motionless sample. -/
def full_counter_quiet : State :=
  { init with en_f := 0, inact_counter := INACT_SAMPLES, xyz := ![0, 0, 0] }

/-! ## Feeding a stream of samples to `wait_INACT` -/

/-- The reading `s` is quiet: once it is stored in `xyz`, `detect_INACT(min())` returns 1. -/
def Quiet (st : State) (s : Fin 3 → Int) : Prop :=
  detect_INACT { st with xyz := s } (min { st with xyz := s }) = 1

instance (st : State) (s : Fin 3 → Int) : Decidable (Quiet st s) := by
  unfold Quiet
  infer_instance

/-- The call `wait_INACT()` made after the reading `s` has been stored in `xyz`. -/
def wait_on (st : State) (s : Fin 3 → Int) : Int × State :=
  wait_INACT { st with xyz := s }

/-- The state after the first `n` readings of the stream `f` have each been given to
`wait_INACT`. -/
def wait_state (st : State) (f : Nat → Fin 3 → Int) : Nat → State
  | 0 => st
  | n + 1 => (wait_on (wait_state st f n) (f n)).2

/-- The value returned by `wait_INACT` at step `k` of the stream `f` (steps count from 0). -/
def wait_ret (st : State) (f : Nat → Fin 3 → Int) (k : Nat) : Int :=
  (wait_on (wait_state st f k) (f k)).1

/-- Step `k` is the first step at which `wait_INACT` returns 1. -/
def FirstRearmAt (st : State) (f : Nat → Fin 3 → Int) (k : Nat) : Prop :=
  wait_ret st f k = 1 ∧ ∀ j, j < k → wait_ret st f j = 0

instance (st : State) (f : Nat → Fin 3 → Int) (k : Nat) : Decidable (FirstRearmAt st f k) := by
  unfold FirstRearmAt
  infer_instance

/-- The `INACT_SAMPLES` steps immediately before step `k` exist and are all quiet. -/
def QuietRunBefore (st : State) (f : Nat → Fin 3 → Int) (k : Nat) : Prop :=
  INACT_SAMPLES ≤ (k : Int) ∧ ∀ j, j < k → (k : Int) - INACT_SAMPLES ≤ (j : Int) → Quiet st (f j)

instance (st : State) (f : Nat → Fin 3 → Int) (k : Nat) :
    Decidable (QuietRunBefore st f k) := by
  unfold QuietRunBefore
  infer_instance

/-- A Settling state with counter 0: the classifier just after a gesture. -/
def settling_start : State := { init with en_f := 0 }

/-- The stream in which every reading is `{0, 0, 0}`. -/
def still_stream : Nat → Fin 3 → Int := fun _ => ![0, 0, 0]

/-! ## The invariant of the classifier state -/

/-- The enable flag is 0 or 1, the counter lies between 0 and `INACT_SAMPLES`, and the
counter is 0 whenever the classifier is enabled. -/
def Invariant (st : State) : Prop :=
  (st.en_f = 0 ∨ st.en_f = 1)
  ∧ 0 ≤ st.inact_counter ∧ st.inact_counter ≤ INACT_SAMPLES
  ∧ (st.en_f = 1 → st.inact_counter = 0)

instance (st : State) : Decidable (Invariant st) := by
  unfold Invariant
  infer_instance

/-- Two iterations from `startup`: a calm sample on a tick, then a motionless one. -/
def calm_inputs : List Input := [⟨true, ![0, 300, 0]⟩, ⟨false, ![0, 0, 0]⟩]

/-- A tick with the sample `{0, 3000, 0}`, a sharp upward movement. -/
def sharp_up : Input := ⟨true, ![0, 3000, 0]⟩

/-! ## Further concrete states -/

/-- An Armed state whose reading on the excluded axis 0 dwarfs the other two. -/
def loud_axis0 : State := { init with xyz := ![30000, 1, -2] }

/-- A Settling state with counter 0 and the reading `{0, 100, 100}`. -/
def gentle : State := { init with en_f := 0, xyz := ![0, 100, 100] }

/-- An Armed state whose three readings have magnitude 255, the reading of 1 g. -/
def tilted : State := { init with xyz := ![255, -255, 255], timer_f := 1 }

/-- The absolute value of an unbounded integer. -/
def abs_unbounded (x : Int) : Int := if x < 0 then -x else x

/-- The function `max` computed on unbounded integers. -/
def max_unbounded (st : State) : Fin 3 :=
  (([1, 2] : List (Fin 3)).foldl
    (fun (acc : Int × Fin 3) i =>
      if abs_unbounded (st.xyz i) > acc.1 then (abs_unbounded (st.xyz i), i) else acc)
    (abs_unbounded (st.xyz st.nox), st.nox)).2

/-- The function `min` computed on unbounded integers. -/
def min_unbounded (st : State) : Fin 3 :=
  (([1, 2] : List (Fin 3)).foldl
    (fun (acc : Int × Fin 3) i =>
      if abs_unbounded (st.xyz i) < acc.1 then (abs_unbounded (st.xyz i), i) else acc)
    (abs_unbounded (st.xyz st.nox), st.nox)).2

/-- The function `detect_ACT` computed on unbounded integers. -/
def detect_ACT_unbounded (st : State) : Int × State :=
  let i := max_unbounded st
  if st.xyz i * 10 > st.act_thresh_coef i 0 * THRESHOLD_1G then
    (1, emit st (st.output i 0))
  else if st.xyz i * 10 < -(st.act_thresh_coef i 1 * THRESHOLD_1G) then
    (1, emit st (st.output i 1))
  else
    (0, st)

/-- The function `detect_INACT` computed on unbounded integers. -/
def detect_INACT_unbounded (st : State) (i : Fin 3) : Int :=
  if abs_unbounded (st.xyz i) * 10 < st.inact_thresh_coef i * THRESHOLD_1G then 1 else 0

/-- A state whose readings sit at the ends of the domain `-32767 .. 32767`. -/
def extreme : State := { init with xyz := ![32767, -32767, 4000] }

/-- A state with the reading `-2147483648` on axis 2, outside the sensor domain: its
magnitude is not representable in 32 bits. -/
def int_min_axis2 : State := { init with xyz := ![0, 5, -2147483648] }

/-- A Settling state with the reading `429496730` on axes 1 and 2: ten times the
magnitude is `4294967300`, which reduces to 4 in 32 bits. -/
def overdriven_settling : State :=
  { init with en_f := 0, xyz := ![0, 429496730, 429496730] }

/-! # Theorems -/

/-! ## Basic facts about the primitives -/

theorem wrap32_of_inRange (x : Int) (h : InRange32 x) : wrap32 x = x := by
  unfold InRange32 at h
  unfold wrap32
  omega

/-- Every 32-bit value other than `-2147483648` has its magnitude as `abs`. -/
theorem abs_eq_natAbs (x : Int) (h : -2147483647 ≤ x) (h2 : x ≤ 2147483647) :
    abs x = (x.natAbs : Int) := by
  unfold abs wrap32
  split_ifs <;> omega

/-- A product of a coefficient with 255 that fits in 32 bits has a negation that fits. -/
theorem inRange32_neg_of_mul (c : Int) (h : InRange32 (c * 255)) : InRange32 (-(c * 255)) := by
  unfold InRange32 at h ⊢
  omega

/-- The function `detect_ACT` when neither ten times the selected reading nor the two
thresholds of the selected axis overflow. -/
theorem detect_ACT_of_inRange (st : State)
    (hr : InRange32 (st.xyz (max st) * 10))
    (hc : ∀ d : Fin 2, InRange32 (st.act_thresh_coef (max st) d * THRESHOLD_1G)) :
    detect_ACT st
      = if st.xyz (max st) * 10 > st.act_thresh_coef (max st) 0 * THRESHOLD_1G then
          (1, emit st (st.output (max st) 0))
        else if st.xyz (max st) * 10 < -(st.act_thresh_coef (max st) 1 * THRESHOLD_1G) then
          (1, emit st (st.output (max st) 1))
        else (0, st) := by
  have h0 := wrap32_of_inRange _ (hc 0)
  have h1 := wrap32_of_inRange _ (hc 1)
  have hn := wrap32_of_inRange _ (inRange32_neg_of_mul _ (hc 1))
  simp only [THRESHOLD_1G] at h0 h1 hn hc ⊢
  simp only [detect_ACT, THRESHOLD_1G, wrap32_of_inRange _ hr, h0, h1, hn]

theorem max_eq_ite (st : State) :
    max st = if abs (st.xyz 2) > (if abs (st.xyz 1) > abs (st.xyz st.nox)
        then abs (st.xyz 1) else abs (st.xyz st.nox))
      then 2 else (if abs (st.xyz 1) > abs (st.xyz st.nox) then 1 else st.nox) := by
  simp only [max, List.foldl]
  split_ifs <;> simp_all

theorem min_eq_ite (st : State) :
    min st = if abs (st.xyz 2) < (if abs (st.xyz 1) < abs (st.xyz st.nox)
        then abs (st.xyz 1) else abs (st.xyz st.nox))
      then 2 else (if abs (st.xyz 1) < abs (st.xyz st.nox) then 1 else st.nox) := by
  simp only [min, List.foldl]
  split_ifs <;> simp_all

theorem max_of_nox_one (st : State) (h : st.nox = 1) :
    max st = if abs (st.xyz 2) > abs (st.xyz 1) then 2 else 1 := by
  rw [max_eq_ite, h]
  simp

theorem min_of_nox_one (st : State) (h : st.nox = 1) :
    min st = if abs (st.xyz 2) < abs (st.xyz 1) then 2 else 1 := by
  rw [min_eq_ite, h]
  simp

theorem land_zero_right (x : Int) : Int.land x 0 = 0 := by
  cases x with
  | ofNat n => simp [Int.land]
  | negSucc n => simp [Int.land, Nat.ldiff, Nat.bitwise]

theorem shift_xyz_stdout (st : State) : (shift_xyz st).stdout = st.stdout := rfl
theorem shift_xyz_en_f (st : State) : (shift_xyz st).en_f = st.en_f := rfl
theorem shift_xyz_inact_counter (st : State) :
    (shift_xyz st).inact_counter = st.inact_counter := rfl

theorem detect_ACT_en_f (st : State) : (detect_ACT st).2.en_f = st.en_f := by
  simp only [detect_ACT]
  split_ifs <;> rfl

theorem detect_ACT_inact_counter (st : State) :
    (detect_ACT st).2.inact_counter = st.inact_counter := by
  simp only [detect_ACT]
  split_ifs <;> rfl

theorem detect_ACT_zero_of_within (st : State)
    (hcoef : ∀ d : Fin 2, InRange32 (st.act_thresh_coef (max st) d * 255))
    (hpos : st.xyz (max st) * 10 ≤ st.act_thresh_coef (max st) 0 * 255)
    (hneg : st.xyz (max st) * 10 ≥ -(st.act_thresh_coef (max st) 1 * 255)) :
    detect_ACT st = (0, st) := by
  have hp : ¬ st.xyz (max st) * 10 > st.act_thresh_coef (max st) 0 * THRESHOLD_1G := by
    simp only [THRESHOLD_1G]; omega
  have hn : ¬ st.xyz (max st) * 10 < -(st.act_thresh_coef (max st) 1 * THRESHOLD_1G) := by
    simp only [THRESHOLD_1G]; omega
  have hr : InRange32 (st.xyz (max st) * 10) := by
    have h0 := hcoef 0
    have h1 := inRange32_neg_of_mul _ (hcoef 1)
    unfold InRange32 at h0 h1 ⊢
    omega
  rw [detect_ACT_of_inRange st hr hcoef, if_neg hp, if_neg hn]

/-- Claim C2, as stated, fails: in Scenario 1 the selected axis is 1 and its reading
lies within `coefficient * 2550` on both sides, yet `detect_ACT` returns 1,
writes `U`, and the step leaves the classifier disabled. -/
theorem scenario1_emits_U :
    max scenario1 = 1
    ∧ scenario1.act_thresh_coef 1 0 = 12
    ∧ scenario1.xyz 1 * 10 ≤ scenario1.act_thresh_coef 1 0 * 2550
    ∧ scenario1.xyz 1 * 10 ≥ -(scenario1.act_thresh_coef 1 1 * 2550)
    ∧ (detect_ACT scenario1).1 = 1
    ∧ (detect_ACT scenario1).2.stdout = scenario1.stdout ++ ['U', '\n']
    ∧ (main_classifier_step scenario1).stdout = scenario1.stdout ++ ['U', '\n']
    ∧ (main_classifier_step scenario1).en_f = 0 := by
  decide

/-- Claim C2 (amended): the activation threshold is `coefficient * 255`.  For every Armed
state whose selected-axis reading `r` satisfies `r * 10 ≤ coefficient_pos * 255` and
`r * 10 ≥ -(coefficient_neg * 255)`, the two products fitting in 32 bits, `detect_ACT`
returns 0 and the classifier step writes nothing and leaves the classifier Armed. -/
theorem armed_within_threshold_stays_armed (st : State) (harmed : st.en_f = 1)
    (hcoef : ∀ d : Fin 2, InRange32 (st.act_thresh_coef (max st) d * 255))
    (hpos : st.xyz (max st) * 10 ≤ st.act_thresh_coef (max st) 0 * 255)
    (hneg : st.xyz (max st) * 10 ≥ -(st.act_thresh_coef (max st) 1 * 255)) :
    (detect_ACT st).1 = 0
    ∧ (detect_ACT st).2.stdout = st.stdout
    ∧ (main_classifier_step st).stdout = st.stdout
    ∧ (main_classifier_step st).en_f = 1 := by
  have hd := detect_ACT_zero_of_within st hcoef hpos hneg
  have hl : lnot (1 : Int) = 0 := by decide
  refine ⟨by rw [hd], by rw [hd], ?_, ?_⟩
  · simp only [main_classifier_step, hd, harmed, hl]
    split_ifs <;> simp_all [shift_xyz_stdout]
  · simp only [main_classifier_step, hd, harmed, hl]
    split_ifs <;> simp_all [shift_xyz_en_f, lnot]

/-- Witness for the amended C2: the sample `{0, 300, 0}` with the coefficients of the source
(`300 * 10 = 3000 ≤ 13 * 255 = 3315`). -/
theorem armed_within_threshold_stays_armed_witness :
    calm_armed.en_f = 1
    ∧ (∀ d : Fin 2, InRange32 (calm_armed.act_thresh_coef (max calm_armed) d * 255))
    ∧ calm_armed.xyz (max calm_armed) * 10 ≤ calm_armed.act_thresh_coef (max calm_armed) 0 * 255
    ∧ calm_armed.xyz (max calm_armed) * 10 ≥ -(calm_armed.act_thresh_coef (max calm_armed) 1 * 255)
    ∧ (detect_ACT calm_armed).1 = 0
    ∧ (detect_ACT calm_armed).2.stdout = calm_armed.stdout
    ∧ (main_classifier_step calm_armed).stdout = calm_armed.stdout
    ∧ (main_classifier_step calm_armed).en_f = 1 :=
  ⟨by decide, by decide, by decide, by decide,
    armed_within_threshold_stays_armed calm_armed (by decide) (by decide) (by decide)
      (by decide)⟩


theorem lnot_zero : lnot 0 = 1 := rfl

theorem receive_en_f (st : State) (inp : Input) : (receive st inp).en_f = st.en_f := by
  simp only [receive]
  split_ifs <;> rfl

theorem receive_inact_counter (st : State) (inp : Input) :
    (receive st inp).inact_counter = st.inact_counter := by
  simp only [receive]
  split_ifs <;> rfl

theorem receive_stdout (st : State) (inp : Input) : (receive st inp).stdout = st.stdout := by
  simp only [receive]
  split_ifs <;> rfl

theorem wait_INACT_stdout (st : State) : (wait_INACT st).2.stdout = st.stdout := by
  simp only [wait_INACT]
  split_ifs <;> rfl

/-- The classifier step taken while disabled is `wait_INACT`, whatever the tick flag. -/
theorem main_classifier_step_of_disabled (st : State) (h : st.en_f = 0) :
    main_classifier_step st = { (wait_INACT st).2 with en_f := (wait_INACT st).1 } := by
  simp [main_classifier_step, h, land_zero_right, lnot_zero]

/-- Claim C4, as stated, fails: in Scenario 2 the sample is quiet, yet `wait_INACT` returns 0
and leaves the counter at `INACT_SAMPLES`; the classifier is still disabled. -/
theorem scenario2_not_yet_armed :
    scenario2.en_f = 0
    ∧ scenario2.inact_counter = INACT_SAMPLES - 1
    ∧ detect_INACT scenario2 (min scenario2) = 1
    ∧ (wait_INACT scenario2).1 = 0
    ∧ (wait_INACT scenario2).2.inact_counter = INACT_SAMPLES
    ∧ (main_classifier_step scenario2).en_f = 0
    ∧ (main_classifier_step scenario2).inact_counter = INACT_SAMPLES := by
  decide

/-- Claim C4 (amended): from a Settling state whose counter is `INACT_SAMPLES - 1`, a quiet
sample makes the counter reach `INACT_SAMPLES` while `wait_INACT` returns 0 and the
classifier stays Settling; the call after that, on any sample and any tick flag,
returns 1 with the counter reset to 0, and the classifier is Armed. -/
theorem last_quiet_sample_then_rearm (st : State) (hset : st.en_f = 0)
    (hc : st.inact_counter = INACT_SAMPLES - 1)
    (hq : detect_INACT st (min st) = 1) :
    ((wait_INACT st).1 = 0
      ∧ (wait_INACT st).2.inact_counter = INACT_SAMPLES
      ∧ (main_classifier_step st).en_f = 0
      ∧ (main_classifier_step st).inact_counter = INACT_SAMPLES)
    ∧ ∀ inp : Input,
      (wait_INACT { (wait_INACT st).2 with xyz := inp.sample }).1 = 1
      ∧ (wait_INACT { (wait_INACT st).2 with xyz := inp.sample }).2.inact_counter = 0
      ∧ (main_iteration (main_classifier_step st) inp).en_f = 1
      ∧ (main_iteration (main_classifier_step st) inp).inact_counter = 0 := by
  have hlt : st.inact_counter < INACT_SAMPLES := by omega
  have hw : wait_INACT st = (0, { st with inact_counter := st.inact_counter + 1 }) := by
    simp [wait_INACT, hlt, hq]
  have hstep : main_classifier_step st
      = { st with inact_counter := st.inact_counter + 1, en_f := 0 } := by
    rw [main_classifier_step_of_disabled st hset, hw]
  have hfull : st.inact_counter + 1 = INACT_SAMPLES := by omega
  refine ⟨⟨by rw [hw], by rw [hw]; exact hfull, by rw [hstep], by rw [hstep]; exact hfull⟩, ?_⟩
  intro inp
  have hw2 : ∀ s : State, s.inact_counter = INACT_SAMPLES →
      wait_INACT s = (1, { s with inact_counter := 0 }) := by
    intro s hs
    simp [wait_INACT, hs]
  refine ⟨?_, ?_, ?_, ?_⟩
  · rw [hw, hw2 _ hfull]
  · rw [hw, hw2 _ hfull]
  · rw [hstep, main_iteration, main_classifier_step_of_disabled, hw2]
    · rw [receive_inact_counter]; exact hfull
    · rw [receive_en_f]
  · rw [hstep, main_iteration, main_classifier_step_of_disabled, hw2]
    · rw [receive_inact_counter]; exact hfull
    · rw [receive_en_f]

/-- Witness for the amended C4 at Scenario 2: one more quiet sample leaves the classifier
Settling, and the iteration after it re-arms even on a sample that is not quiet. -/
theorem last_quiet_sample_then_rearm_witness :
    scenario2.en_f = 0
    ∧ scenario2.inact_counter = INACT_SAMPLES - 1
    ∧ detect_INACT scenario2 (min scenario2) = 1
    ∧ (main_classifier_step scenario2).en_f = 0
    ∧ (main_iteration (main_classifier_step scenario2) ⟨false, ![0, 3000, 3000]⟩).en_f = 1 :=
  ⟨by decide, by decide, by decide,
    (last_quiet_sample_then_rearm scenario2 (by decide) (by decide) (by decide)).1.2.2.1,
    ((last_quiet_sample_then_rearm scenario2 (by decide) (by decide) (by decide)).2
      ⟨false, ![0, 3000, 3000]⟩).2.2.1⟩


/-- Claim C5, as stated, fails at the counter value `INACT_SAMPLES`: the sample is not quiet,
yet `wait_INACT` returns 1 and the classifier step re-arms. -/
theorem full_counter_moving_rearms :
    full_counter_moving.en_f = 0
    ∧ 0 ≤ full_counter_moving.inact_counter
    ∧ full_counter_moving.inact_counter ≤ INACT_SAMPLES
    ∧ detect_INACT full_counter_moving (min full_counter_moving) = 0
    ∧ (wait_INACT full_counter_moving).1 = 1
    ∧ (main_classifier_step full_counter_moving).en_f = 1 := by
  decide

/-- Claim C5 (amended): for every Settling state whose counter is below `INACT_SAMPLES` and
every sample that is not quiet on the axis `min st`, `wait_INACT` returns 0 with the
counter reset to 0, and the classifier step leaves the classifier Settling. -/
theorem moving_sample_resets_counter (st : State) (hset : st.en_f = 0)
    (hc : st.inact_counter < INACT_SAMPLES)
    (hq : detect_INACT st (min st) = 0) :
    (wait_INACT st).1 = 0
    ∧ (wait_INACT st).2.inact_counter = 0
    ∧ (main_classifier_step st).en_f = 0
    ∧ (main_classifier_step st).inact_counter = 0 := by
  have hw : wait_INACT st = (0, { st with inact_counter := 0 }) := by
    simp [wait_INACT, hc, hq]
  rw [main_classifier_step_of_disabled st hset, hw]
  exact ⟨rfl, rfl, rfl, rfl⟩

/-- Witness for the amended C5 at Scenario 3 (counter 5). -/
theorem moving_sample_resets_counter_witness :
    scenario3.en_f = 0
    ∧ scenario3.inact_counter = 5
    ∧ detect_INACT scenario3 (min scenario3) = 0
    ∧ (wait_INACT scenario3).1 = 0
    ∧ (wait_INACT scenario3).2.inact_counter = 0
    ∧ (main_classifier_step scenario3).en_f = 0
    ∧ (main_classifier_step scenario3).inact_counter = 0 :=
  ⟨by decide, by decide, by decide,
    moving_sample_resets_counter scenario3 (by decide) (by decide) (by decide)⟩

/-- Claim C6: for every Settling state and every sample that is quiet on the axis `min st`:
with the counter below `INACT_SAMPLES` the step adds exactly 1 to the counter and the
classifier stays Settling; with the counter equal to `INACT_SAMPLES` the step resets the
counter to 0 and the classifier becomes Armed. -/
theorem quiet_sample_counts_or_rearms (st : State) (hset : st.en_f = 0)
    (hq : detect_INACT st (min st) = 1) :
    (st.inact_counter < INACT_SAMPLES →
      (wait_INACT st).1 = 0
      ∧ (wait_INACT st).2.inact_counter = st.inact_counter + 1
      ∧ (main_classifier_step st).en_f = 0
      ∧ (main_classifier_step st).inact_counter = st.inact_counter + 1)
    ∧ (st.inact_counter = INACT_SAMPLES →
      (wait_INACT st).1 = 1
      ∧ (wait_INACT st).2.inact_counter = 0
      ∧ (main_classifier_step st).en_f = 1
      ∧ (main_classifier_step st).inact_counter = 0) := by
  constructor
  · intro hc
    have hw : wait_INACT st = (0, { st with inact_counter := st.inact_counter + 1 }) := by
      simp [wait_INACT, hc, hq]
    rw [main_classifier_step_of_disabled st hset, hw]
    exact ⟨rfl, rfl, rfl, rfl⟩
  · intro hc
    have hw : wait_INACT st = (1, { st with inact_counter := 0 }) := by
      simp [wait_INACT, hc]
    rw [main_classifier_step_of_disabled st hset, hw]
    exact ⟨rfl, rfl, rfl, rfl⟩

/-- Witness for C6: counter 5 goes to 6 and stays Settling; counter `INACT_SAMPLES` re-arms. -/
theorem quiet_sample_counts_or_rearms_witness :
    (settling_quiet.en_f = 0
      ∧ detect_INACT settling_quiet (min settling_quiet) = 1
      ∧ settling_quiet.inact_counter < INACT_SAMPLES
      ∧ (main_classifier_step settling_quiet).en_f = 0
      ∧ (main_classifier_step settling_quiet).inact_counter = 6)
    ∧ (full_counter_quiet.en_f = 0
      ∧ detect_INACT full_counter_quiet (min full_counter_quiet) = 1
      ∧ full_counter_quiet.inact_counter = INACT_SAMPLES
      ∧ (main_classifier_step full_counter_quiet).en_f = 1
      ∧ (main_classifier_step full_counter_quiet).inact_counter = 0) :=
  ⟨⟨by decide, by decide, by decide,
      ((quiet_sample_counts_or_rearms settling_quiet (by decide) (by decide)).1
        (by decide)).2.2.1,
      ((quiet_sample_counts_or_rearms settling_quiet (by decide) (by decide)).1
        (by decide)).2.2.2⟩,
    ⟨by decide, by decide, by decide,
      ((quiet_sample_counts_or_rearms full_counter_quiet (by decide) (by decide)).2
        (by decide)).2.2.1,
      ((quiet_sample_counts_or_rearms full_counter_quiet (by decide) (by decide)).2
        (by decide)).2.2.2⟩⟩

/-- Claim C7: a loop iteration taken while the classifier is disabled (`en_f = 0`) writes no
character, for every sample, every counter value and every tick flag. -/
theorem settling_iteration_writes_nothing (st : State) (inp : Input) (hset : st.en_f = 0) :
    (main_iteration st inp).stdout = st.stdout
    ∧ (main_classifier_step st).stdout = st.stdout := by
  constructor
  · rw [main_iteration, main_classifier_step_of_disabled]
    · exact (wait_INACT_stdout _).trans (receive_stdout st inp)
    · rw [receive_en_f]; exact hset
  · rw [main_classifier_step_of_disabled st hset]
    exact wait_INACT_stdout st

/-- Witness for C7: a large sample on a tick, taken while Settling, writes nothing. -/
theorem settling_iteration_writes_nothing_witness :
    scenario3.en_f = 0
    ∧ (main_iteration scenario3 ⟨true, ![0, 30000, -30000]⟩).stdout = scenario3.stdout
    ∧ (main_classifier_step scenario3).stdout = scenario3.stdout :=
  ⟨by decide, settling_iteration_writes_nothing scenario3 ⟨true, ![0, 30000, -30000]⟩ (by decide)⟩

/-- Claim C9, as stated, fails at the reading `-2147483648`: on the sample
`{0, 5, -2147483648}` axis 2 has the larger magnitude, yet `abs` of it is negative in
32 bits and `max` returns axis 1. -/
theorem int_min_not_selected_by_max :
    int_min_axis2.nox = 1
    ∧ (∀ k : Fin 3, InRange32 (int_min_axis2.xyz k))
    ∧ (int_min_axis2.xyz 1).natAbs < (int_min_axis2.xyz 2).natAbs
    ∧ max int_min_axis2 = 1
    ∧ ¬ (int_min_axis2.xyz 2).natAbs ≤ (int_min_axis2.xyz (max int_min_axis2)).natAbs := by
  decide

/-- Claim C9 (amended): with `nox = 1` and the readings of axes 1 and 2 other than
`-2147483648`, `max` returns axis 1 or axis 2, the reading on the returned axis has the
largest absolute value of the two, and on a tie the result is axis 1. -/
theorem max_selects_largest_magnitude (st : State) (hnox : st.nox = 1)
    (h1 : -2147483647 ≤ st.xyz 1 ∧ st.xyz 1 ≤ 2147483647)
    (h2 : -2147483647 ≤ st.xyz 2 ∧ st.xyz 2 ≤ 2147483647) :
    (max st = 1 ∨ max st = 2)
    ∧ (st.xyz 1).natAbs ≤ (st.xyz (max st)).natAbs
    ∧ (st.xyz 2).natAbs ≤ (st.xyz (max st)).natAbs
    ∧ ((st.xyz 1).natAbs = (st.xyz 2).natAbs → max st = 1) := by
  rw [max_of_nox_one st hnox]
  rw [abs_eq_natAbs _ h1.1 h1.2, abs_eq_natAbs _ h2.1 h2.2]
  split_ifs with h
  · refine ⟨Or.inr rfl, ?_, le_refl _, ?_⟩ <;> omega
  · refine ⟨Or.inl rfl, le_refl _, ?_, fun _ => rfl⟩
    omega

/-- Witness for the amended C9 on the sample `{0, 3000, 3000}`, a tie. -/
theorem max_selects_largest_magnitude_witness :
    full_counter_moving.nox = 1
    ∧ (max full_counter_moving = 1 ∨ max full_counter_moving = 2)
    ∧ (full_counter_moving.xyz 1).natAbs ≤ (full_counter_moving.xyz (max full_counter_moving)).natAbs
    ∧ (full_counter_moving.xyz 2).natAbs ≤ (full_counter_moving.xyz (max full_counter_moving)).natAbs
    ∧ ((full_counter_moving.xyz 1).natAbs = (full_counter_moving.xyz 2).natAbs →
        max full_counter_moving = 1) :=
  ⟨by decide,
    max_selects_largest_magnitude full_counter_moving (by decide) (by decide) (by decide)⟩

/-- Claim C10, as stated, fails at the reading `-2147483648`: on the sample
`{0, 5, -2147483648}` axis 1 has the smaller magnitude, yet `abs` of the reading of
axis 2 is negative in 32 bits and `min` returns axis 2. -/
theorem int_min_selected_by_min :
    int_min_axis2.nox = 1
    ∧ (∀ k : Fin 3, InRange32 (int_min_axis2.xyz k))
    ∧ (int_min_axis2.xyz 1).natAbs < (int_min_axis2.xyz 2).natAbs
    ∧ min int_min_axis2 = 2
    ∧ ¬ (int_min_axis2.xyz (min int_min_axis2)).natAbs ≤ (int_min_axis2.xyz 1).natAbs := by
  decide

/-- Claim C10 (amended): with `nox = 1` and the readings of axes 1 and 2 other than
`-2147483648`, `min` returns axis 1 or axis 2, the reading on the returned axis has the
smallest absolute value of the two, and on a tie the result is axis 1. -/
theorem min_selects_smallest_magnitude (st : State) (hnox : st.nox = 1)
    (h1 : -2147483647 ≤ st.xyz 1 ∧ st.xyz 1 ≤ 2147483647)
    (h2 : -2147483647 ≤ st.xyz 2 ∧ st.xyz 2 ≤ 2147483647) :
    (min st = 1 ∨ min st = 2)
    ∧ (st.xyz (min st)).natAbs ≤ (st.xyz 1).natAbs
    ∧ (st.xyz (min st)).natAbs ≤ (st.xyz 2).natAbs
    ∧ ((st.xyz 1).natAbs = (st.xyz 2).natAbs → min st = 1) := by
  rw [min_of_nox_one st hnox]
  rw [abs_eq_natAbs _ h1.1 h1.2, abs_eq_natAbs _ h2.1 h2.2]
  split_ifs with h
  · refine ⟨Or.inr rfl, ?_, le_refl _, ?_⟩ <;> omega
  · refine ⟨Or.inl rfl, le_refl _, ?_, fun _ => rfl⟩
    omega

/-- Witness for the amended C10 on the sample `{0, 3000, 3000}`, a tie. -/
theorem min_selects_smallest_magnitude_witness :
    scenario3.nox = 1
    ∧ (min scenario3 = 1 ∨ min scenario3 = 2)
    ∧ (scenario3.xyz (min scenario3)).natAbs ≤ (scenario3.xyz 1).natAbs
    ∧ (scenario3.xyz (min scenario3)).natAbs ≤ (scenario3.xyz 2).natAbs
    ∧ ((scenario3.xyz 1).natAbs = (scenario3.xyz 2).natAbs → min scenario3 = 1) :=
  ⟨by decide, min_selects_smallest_magnitude scenario3 (by decide) (by decide) (by decide)⟩

/-! ## Runs of quiet samples -/

/-- A counter that starts at 0 and, while below `L`, is incremented on a quiet step and
cleared on any other step, equals the length of the longest run of quiet steps that
ends at the current step, as long as it has stayed below `L` so far. -/
theorem counter_tracks_quiet_run (c : Nat → Int) (q : Nat → Prop) (L : Int) (hL : 0 ≤ L)
    (h0 : c 0 = 0)
    (hstep : ∀ n, c n < L → (q n ∧ c (n + 1) = c n + 1) ∨ (¬ q n ∧ c (n + 1) = 0)) :
    ∀ n : Nat, (∀ j, j < n → c j < L) →
      0 ≤ c n ∧ c n ≤ n ∧ c n ≤ L
      ∧ (∀ j : Nat, j < n → (n : Int) - c n ≤ (j : Int) → q j)
      ∧ (∀ m : Nat, m ≤ n →
          (∀ j : Nat, j < n → (n : Int) - (m : Int) ≤ (j : Int) → q j) → (m : Int) ≤ c n) := by
  intro n
  induction n with
  | zero =>
    intro _
    refine ⟨by omega, by omega, by omega, ?_, ?_⟩
    · intro j hj; omega
    · intro m hm _; omega
  | succ n ih =>
    intro hlt
    obtain ⟨hc0, hcn, _, hrun, hmax⟩ := ih (fun j hj => hlt j (by omega))
    have hn : c n < L := hlt n (by omega)
    rcases hstep n hn with ⟨hq, hc⟩ | ⟨hq, hc⟩
    · refine ⟨by omega, by push_cast; omega, by omega, ?_, ?_⟩
      · intro j hj hle
        by_cases hjn : j = n
        · subst hjn; exact hq
        · exact hrun j (by omega) (by push_cast at hle; omega)
      · intro m hm hall
        cases m with
        | zero => push_cast; omega
        | succ m =>
          have := hmax m (by omega) (fun j hj hle => hall j (by omega) (by push_cast; omega))
          push_cast
          omega
    · refine ⟨by omega, by push_cast; omega, by omega, ?_, ?_⟩
      · intro j hj hle
        push_cast at hle
        omega
      · intro m hm hall
        cases m with
        | zero => push_cast; omega
        | succ m => exact absurd (hall n (by omega) (by push_cast; omega)) hq

/-! ## `wait_INACT` over a stream -/

theorem detect_INACT_ne_zero_iff (st : State) (i : Fin 3) :
    detect_INACT st i ≠ 0 ↔ detect_INACT st i = 1 := by
  simp only [detect_INACT]
  split_ifs <;> simp

theorem quiet_congr (s1 s2 : State) (s : Fin 3 → Int)
    (hcoef : s1.inact_thresh_coef = s2.inact_thresh_coef) (hnox : s1.nox = s2.nox) :
    Quiet s1 s ↔ Quiet s2 s := by
  simp only [Quiet, detect_INACT, min, hcoef, hnox]

theorem wait_on_frame (st : State) (s : Fin 3 → Int) :
    (wait_on st s).2.inact_thresh_coef = st.inact_thresh_coef
    ∧ (wait_on st s).2.nox = st.nox := by
  simp only [wait_on, wait_INACT]
  split_ifs <;> exact ⟨rfl, rfl⟩

theorem wait_state_frame (st : State) (f : Nat → Fin 3 → Int) (n : Nat) :
    (wait_state st f n).inact_thresh_coef = st.inact_thresh_coef
    ∧ (wait_state st f n).nox = st.nox := by
  induction n with
  | zero => exact ⟨rfl, rfl⟩
  | succ n ih =>
    have h := wait_on_frame (wait_state st f n) (f n)
    exact ⟨h.1.trans ih.1, h.2.trans ih.2⟩

theorem quiet_wait_state (st : State) (f : Nat → Fin 3 → Int) (n : Nat) (s : Fin 3 → Int) :
    Quiet (wait_state st f n) s ↔ Quiet st s :=
  quiet_congr _ _ s (wait_state_frame st f n).1 (wait_state_frame st f n).2

/-- The value returned by `wait_INACT` depends on the counter alone. -/
theorem wait_on_ret (st : State) (s : Fin 3 → Int) :
    (wait_on st s).1 = if st.inact_counter < INACT_SAMPLES then 0 else 1 := by
  simp only [wait_on, wait_INACT]
  split_ifs <;> rfl

/-- The counter left by `wait_INACT`. -/
theorem wait_on_counter (st : State) (s : Fin 3 → Int) :
    (wait_on st s).2.inact_counter
      = if st.inact_counter < INACT_SAMPLES then
          (if Quiet st s then st.inact_counter + 1 else 0)
        else 0 := by
  have hq : Quiet st s ↔ detect_INACT { st with xyz := s } (min { st with xyz := s }) ≠ 0 := by
    rw [detect_INACT_ne_zero_iff]; rfl
  simp only [wait_on, wait_INACT, hq]
  split_ifs <;> rfl

theorem wait_ret_eq (st : State) (f : Nat → Fin 3 → Int) (k : Nat) :
    wait_ret st f k = if (wait_state st f k).inact_counter < INACT_SAMPLES then 0 else 1 :=
  wait_on_ret _ _

theorem wait_state_counter_succ (st : State) (f : Nat → Fin 3 → Int) (n : Nat) :
    (wait_state st f (n + 1)).inact_counter
      = if (wait_state st f n).inact_counter < INACT_SAMPLES then
          (if Quiet st (f n) then (wait_state st f n).inact_counter + 1 else 0)
        else 0 := by
  have h := wait_on_counter (wait_state st f n) (f n)
  simp only [quiet_wait_state] at h
  exact h

/-- The counter over a stream, read through `counter_tracks_quiet_run`. -/
theorem wait_state_tracks_quiet_run (st : State) (f : Nat → Fin 3 → Int)
    (h0 : st.inact_counter = 0) (n : Nat)
    (hlt : ∀ j, j < n → (wait_state st f j).inact_counter < INACT_SAMPLES) :
    (wait_state st f n).inact_counter ≤ n
    ∧ (wait_state st f n).inact_counter ≤ INACT_SAMPLES
    ∧ (∀ j : Nat, j < n → (n : Int) - (wait_state st f n).inact_counter ≤ (j : Int) →
        Quiet st (f j))
    ∧ (∀ m : Nat, m ≤ n →
        (∀ j : Nat, j < n → (n : Int) - (m : Int) ≤ (j : Int) → Quiet st (f j)) →
        (m : Int) ≤ (wait_state st f n).inact_counter) := by
  have h := counter_tracks_quiet_run (fun n => (wait_state st f n).inact_counter)
    (fun n => Quiet st (f n)) INACT_SAMPLES (by decide) h0
    (by
      intro n hn
      have hs := wait_state_counter_succ st f n
      simp only [] at hn ⊢
      rw [if_pos hn] at hs
      by_cases hq : Quiet st (f n)
      · left; rw [if_pos hq] at hs; exact ⟨hq, hs⟩
      · right; rw [if_neg hq] at hs; exact ⟨hq, hs⟩)
    n hlt
  exact ⟨h.2.1, h.2.2.1, h.2.2.2.1, h.2.2.2.2⟩

/-- Claim C3: starting from counter 0, `wait_INACT` first returns 1 at step `k` exactly when
the `INACT_SAMPLES` steps immediately before `k` are all quiet and no earlier step has
that property; and a sample that is not quiet always leaves the counter at 0. -/
theorem rearm_iff_earliest_quiet_run (st : State) (f : Nat → Fin 3 → Int) (k : Nat)
    (h0 : st.inact_counter = 0) :
    (FirstRearmAt st f k ↔
      (QuietRunBefore st f k ∧ ∀ k2, k2 < k → ¬ QuietRunBefore st f k2))
    ∧ (∀ j, ¬ Quiet st (f j) → (wait_state st f (j + 1)).inact_counter = 0) := by
  have hLval : INACT_SAMPLES = 1000 := rfl
  constructor
  · constructor
    · rintro ⟨hk, hbefore⟩
      have hlt : ∀ j, j < k → (wait_state st f j).inact_counter < INACT_SAMPLES := by
        intro j hj
        have := hbefore j hj
        rw [wait_ret_eq] at this
        by_contra hcon
        rw [if_neg hcon] at this
        exact absurd this (by decide)
      have hge : ¬ (wait_state st f k).inact_counter < INACT_SAMPLES := by
        intro hcon
        rw [wait_ret_eq, if_pos hcon] at hk
        exact absurd hk (by decide)
      obtain ⟨hck, hcL, hrun, _⟩ := wait_state_tracks_quiet_run st f h0 k hlt
      refine ⟨⟨by omega, fun j hj hle => hrun j hj (by omega)⟩, ?_⟩
      rintro k2 hk2 ⟨hL2, hrun2⟩
      obtain ⟨_, _, _, hmax⟩ :=
        wait_state_tracks_quiet_run st f h0 k2 (fun j hj => hlt j (by omega))
      have := hmax 1000 (by omega) (fun j hj hle => hrun2 j hj (by omega))
      have := hlt k2 hk2
      omega
    · rintro ⟨⟨hLk, hrun⟩, hearliest⟩
      have hlt : ∀ j, j < k → (wait_state st f j).inact_counter < INACT_SAMPLES := by
        intro j
        induction j using Nat.strong_induction_on with
        | _ j ih =>
          intro hj
          obtain ⟨hcj, hcL, hrunj, _⟩ :=
            wait_state_tracks_quiet_run st f h0 j (fun i hi => ih i hi (by omega))
          by_contra hcon
          exact hearliest j hj ⟨by omega, fun i hi hle => hrunj i hi (by omega)⟩
      obtain ⟨_, _, _, hmax⟩ := wait_state_tracks_quiet_run st f h0 k hlt
      have hfull := hmax 1000 (by omega) (fun j hj hle => hrun j hj (by omega))
      refine ⟨?_, ?_⟩
      · rw [wait_ret_eq, if_neg (by omega)]
      · intro j hj
        rw [wait_ret_eq, if_pos (hlt j hj)]
  · intro j hq
    rw [wait_state_counter_succ]
    split_ifs <;> rfl

/-- Witness for C3: on the motionless stream the first re-arm is at step 1000. -/
theorem rearm_iff_earliest_quiet_run_witness :
    settling_start.inact_counter = 0 ∧ FirstRearmAt settling_start still_stream 1000 :=
  ⟨rfl,
    (rearm_iff_earliest_quiet_run settling_start still_stream 1000 rfl).1.2
      ⟨⟨by decide, fun _ _ _ => (by decide : Quiet settling_start ![0, 0, 0])⟩,
        fun k2 hk2 h => absurd h.1 (by simp only [INACT_SAMPLES]; omega)⟩⟩

/-! ## The invariant along the loop -/

theorem lnot_eq_zero_or_one (x : Int) : lnot x = 0 ∨ lnot x = 1 := by
  unfold lnot
  split_ifs
  · exact Or.inr rfl
  · exact Or.inl rfl

theorem wait_INACT_invariant (st : State) (h : Invariant st) :
    ((wait_INACT st).1 = 0 ∨ (wait_INACT st).1 = 1)
    ∧ 0 ≤ (wait_INACT st).2.inact_counter
    ∧ (wait_INACT st).2.inact_counter ≤ INACT_SAMPLES
    ∧ ((wait_INACT st).1 = 1 → (wait_INACT st).2.inact_counter = 0) := by
  obtain ⟨_, h0, hL, _⟩ := h
  have hLval : INACT_SAMPLES = 1000 := rfl
  simp only [wait_INACT]
  split_ifs with hlt hq
  · exact ⟨Or.inl rfl, by simp only []; omega, by simp only []; omega,
      fun hcon => absurd hcon (show ¬ (0 : Int) = 1 by decide)⟩
  · exact ⟨Or.inl rfl, le_refl _, by simp only []; omega, fun _ => rfl⟩
  · exact ⟨Or.inr rfl, le_refl _, by simp only []; omega, fun _ => rfl⟩

theorem main_classifier_step_invariant (st : State) (h : Invariant st) :
    Invariant (main_classifier_step st) := by
  have h' := h
  obtain ⟨hen, h0, hL, harm⟩ := h'
  simp only [main_classifier_step]
  split_ifs with htick hdis
  · have hen1 : st.en_f = 1 := by
      rcases hen with he | he
      · rw [he, land_zero_right] at htick
        exact absurd rfl htick
      · exact he
    have hc : st.inact_counter = 0 := harm hen1
    refine ⟨?_, ?_, ?_, ?_⟩
    · rcases lnot_eq_zero_or_one (detect_ACT st).1 with hl | hl
      · left; exact hl
      · right; exact hl
    · show 0 ≤ (detect_ACT st).2.inact_counter
      rw [detect_ACT_inact_counter]; exact h0
    · show (detect_ACT st).2.inact_counter ≤ INACT_SAMPLES
      rw [detect_ACT_inact_counter]; exact hL
    · intro _
      show (detect_ACT st).2.inact_counter = 0
      rw [detect_ACT_inact_counter]; exact hc
  · exact wait_INACT_invariant st h
  · exact h

theorem main_iteration_invariant (st : State) (inp : Input) (h : Invariant st) :
    Invariant (main_iteration st inp) := by
  apply main_classifier_step_invariant
  unfold Invariant
  rw [receive_en_f, receive_inact_counter]
  exact h

theorem run_invariant (inps : List Input) :
    ∀ st : State, Invariant st → Invariant (run st inps) := by
  induction inps with
  | nil => intro st h; exact h
  | cons inp rest ih =>
    intro st h
    exact ih (main_iteration st inp) (main_iteration_invariant st inp h)

theorem invariant_of_armed_zero (st : State) (harmed : st.en_f = 1)
    (hzero : st.inact_counter = 0) : Invariant st := by
  refine ⟨Or.inr harmed, by omega, ?_, fun _ => hzero⟩
  rw [hzero]
  decide

/-- Claim C8: in every state reached from an Armed state with counter 0 by any list of
iterations, an iteration that classifies the sample (tick flag and enable flag set) and
detects a gesture leaves the classifier disabled with the counter equal to 0. -/
theorem detection_enters_settling_with_zero_counter (st0 : State) (inps : List Input)
    (inp : Input) (harmed : st0.en_f = 1) (hzero : st0.inact_counter = 0)
    (htick : Int.land (receive (run st0 inps) inp).timer_f
      (receive (run st0 inps) inp).en_f ≠ 0)
    (hdet : (detect_ACT (receive (run st0 inps) inp)).1 = 1) :
    (main_iteration (run st0 inps) inp).en_f = 0
    ∧ (main_iteration (run st0 inps) inp).inact_counter = 0 := by
  have hinv := run_invariant inps st0 (invariant_of_armed_zero st0 harmed hzero)
  obtain ⟨hen, _, _, harm⟩ := hinv
  have hen1 : (run st0 inps).en_f = 1 := by
    rcases hen with he | he
    · rw [receive_en_f, he, land_zero_right] at htick
      exact absurd rfl htick
    · exact he
  have hc : (run st0 inps).inact_counter = 0 := harm hen1
  simp only [main_iteration, main_classifier_step, if_pos htick, hdet]
  refine ⟨rfl, ?_⟩
  show (detect_ACT (receive (run st0 inps) inp)).2.inact_counter = 0
  rw [detect_ACT_inact_counter, receive_inact_counter]
  exact hc

/-- Witness for C8: after two calm iterations from `startup`, a sharp upward sample on a
tick is detected and leaves the classifier Settling with counter 0. -/
theorem detection_enters_settling_with_zero_counter_witness :
    startup.en_f = 1
    ∧ startup.inact_counter = 0
    ∧ Int.land (receive (run startup calm_inputs) sharp_up).timer_f
        (receive (run startup calm_inputs) sharp_up).en_f ≠ 0
    ∧ (detect_ACT (receive (run startup calm_inputs) sharp_up)).1 = 1
    ∧ (main_iteration (run startup calm_inputs) sharp_up).en_f = 0
    ∧ (main_iteration (run startup calm_inputs) sharp_up).inact_counter = 0 :=
  ⟨by decide, by decide, by decide, by decide,
    detection_enters_settling_with_zero_counter startup calm_inputs sharp_up
      (by decide) (by decide) (by decide) (by decide)⟩

/-! ## Axis selection with axis 0 excluded -/

/-- Claim C11: with `nox = 1`, `max` and `min` return axis 1 or axis 2, never axis 0, and
neither result depends on the reading of axis 0. -/
theorem max_min_never_excluded_axis (st : State) (hnox : st.nox = 1) :
    (max st = 1 ∨ max st = 2) ∧ (min st = 1 ∨ min st = 2)
    ∧ max st ≠ 0 ∧ min st ≠ 0
    ∧ (∀ v : Int, max { st with xyz := Function.update st.xyz 0 v } = max st)
    ∧ (∀ v : Int, min { st with xyz := Function.update st.xyz 0 v } = min st) := by
  refine ⟨?_, ?_, ?_, ?_, ?_, ?_⟩
  · rw [max_of_nox_one st hnox]
    split_ifs
    · exact Or.inr rfl
    · exact Or.inl rfl
  · rw [min_of_nox_one st hnox]
    split_ifs
    · exact Or.inr rfl
    · exact Or.inl rfl
  · rw [max_of_nox_one st hnox]
    split_ifs <;> decide
  · rw [min_of_nox_one st hnox]
    split_ifs <;> decide
  · intro v
    rw [max_of_nox_one st hnox,
      max_of_nox_one { st with xyz := Function.update st.xyz 0 v } hnox]
    simp [Function.update]
  · intro v
    rw [min_of_nox_one st hnox,
      min_of_nox_one { st with xyz := Function.update st.xyz 0 v } hnox]
    simp [Function.update]

/-- Witness for C11 on the sample `{30000, 1, -2}`. -/
theorem max_min_never_excluded_axis_witness :
    loud_axis0.nox = 1
    ∧ max loud_axis0 = 2 ∧ min loud_axis0 = 1
    ∧ max loud_axis0 ≠ 0 ∧ min loud_axis0 ≠ 0 :=
  ⟨by decide, by decide, by decide,
    (max_min_never_excluded_axis loud_axis0 (by decide)).2.2.1,
    (max_min_never_excluded_axis loud_axis0 (by decide)).2.2.2.1⟩

/-- Claim C12: with `nox = 1`, when the readings of axes 1 and 2, any two 32-bit values,
have distinct magnitudes, `max` and `min` return different axes, and between them
exactly the axes 1 and 2. -/
theorem max_min_split_axes (st : State) (hnox : st.nox = 1)
    (hr1 : InRange32 (st.xyz 1)) (hr2 : InRange32 (st.xyz 2))
    (hdist : (st.xyz 1).natAbs ≠ (st.xyz 2).natAbs) :
    max st ≠ min st
    ∧ ((max st = 1 ∧ min st = 2) ∨ (max st = 2 ∧ min st = 1)) := by
  have hne : abs (st.xyz 2) ≠ abs (st.xyz 1) := by
    unfold InRange32 at hr1 hr2
    unfold abs wrap32
    split_ifs <;> omega
  rw [max_of_nox_one st hnox, min_of_nox_one st hnox]
  by_cases h : abs (st.xyz 2) > abs (st.xyz 1)
  · have h2 : ¬ abs (st.xyz 2) < abs (st.xyz 1) := by omega
    rw [if_pos h, if_neg h2]
    exact ⟨by decide, Or.inr ⟨rfl, rfl⟩⟩
  · have h2 : abs (st.xyz 2) < abs (st.xyz 1) := by omega
    rw [if_neg h, if_pos h2]
    exact ⟨by decide, Or.inl ⟨rfl, rfl⟩⟩

/-- Witness for C12 on the sample `{30000, 1, -2}`. -/
theorem max_min_split_axes_witness :
    loud_axis0.nox = 1
    ∧ InRange32 (loud_axis0.xyz 1) ∧ InRange32 (loud_axis0.xyz 2)
    ∧ (loud_axis0.xyz 1).natAbs ≠ (loud_axis0.xyz 2).natAbs
    ∧ max loud_axis0 ≠ min loud_axis0
    ∧ ((max loud_axis0 = 1 ∧ min loud_axis0 = 2) ∨ (max loud_axis0 = 2 ∧ min loud_axis0 = 1)) :=
  ⟨by decide, by decide, by decide, by decide,
    max_min_split_axes loud_axis0 (by decide) (by decide) (by decide) (by decide)⟩

/-! ## The settle test -/

/-- Claim C14, as stated, fails: with the reading 100 on axis 1 and coefficient 2,
`abs(xyz[1]) * 10 = 1000` is below `2 * 2550`, yet `detect_INACT(1)` returns 0.  It
also fails where ten times the magnitude overflows: with the reading `429496730` the
product reduces to 4 in 32 bits and `detect_INACT(1)` returns 1. -/
theorem gentle_not_quiet :
    (min gentle = 1
      ∧ ((gentle.xyz 1).natAbs : Int) * 10 < gentle.inact_thresh_coef 1 * 2550
      ∧ detect_INACT gentle 1 = 0
      ∧ ¬ (detect_INACT gentle 1 = 1 ↔
          ((gentle.xyz 1).natAbs : Int) * 10 < gentle.inact_thresh_coef 1 * 2550))
    ∧ (min overdriven_settling = 1
      ∧ InRange32 (overdriven_settling.xyz 1)
      ∧ detect_INACT overdriven_settling 1 = 1
      ∧ ¬ ((overdriven_settling.xyz 1).natAbs : Int) * 10
          < overdriven_settling.inact_thresh_coef 1 * 2550
      ∧ ¬ ((overdriven_settling.xyz 1).natAbs : Int) * 10
          < overdriven_settling.inact_thresh_coef 1 * 255) := by
  decide

/-- Claim C14 (amended): when the reading of axis `i` has magnitude at most `214748364`
and `inact_thresh_coef[i] * 255` fits in 32 bits, `detect_INACT(i)` returns 1 exactly
when `abs(xyz[i]) * 10 < inact_thresh_coef[i] * 255`, and returns 0 otherwise. -/
theorem detect_INACT_iff (st : State) (i : Fin 3)
    (hx : -214748364 ≤ st.xyz i ∧ st.xyz i ≤ 214748364)
    (hc : InRange32 (st.inact_thresh_coef i * 255)) :
    (detect_INACT st i = 1 ↔ ((st.xyz i).natAbs : Int) * 10 < st.inact_thresh_coef i * 255)
    ∧ (detect_INACT st i = 0 ↔
        ¬ ((st.xyz i).natAbs : Int) * 10 < st.inact_thresh_coef i * 255) := by
  have ha : abs (st.xyz i) = ((st.xyz i).natAbs : Int) :=
    abs_eq_natAbs _ (by omega) (by omega)
  have hm : wrap32 (((st.xyz i).natAbs : Int) * 10) = ((st.xyz i).natAbs : Int) * 10 :=
    wrap32_of_inRange _ (by unfold InRange32; omega)
  simp only [detect_INACT, THRESHOLD_1G, ha, hm, wrap32_of_inRange _ hc]
  split_ifs with h
  · exact ⟨⟨fun _ => h, fun _ => rfl⟩, ⟨fun hc => absurd hc (by decide), fun hc => absurd h hc⟩⟩
  · exact ⟨⟨fun hc => absurd hc (by decide), fun hc => absurd hc h⟩, ⟨fun _ => h, fun _ => rfl⟩⟩

/-- Witness for the amended C14: the reading 100 with coefficient 2 is not quiet
(`1000 ≥ 510`), the reading 0 is. -/
theorem detect_INACT_iff_witness :
    (-214748364 ≤ gentle.xyz 1 ∧ gentle.xyz 1 ≤ 214748364)
    ∧ InRange32 (gentle.inact_thresh_coef 1 * 255)
    ∧ detect_INACT gentle 1 = 0
    ∧ ¬ ((gentle.xyz 1).natAbs : Int) * 10 < gentle.inact_thresh_coef 1 * 255
    ∧ (detect_INACT gentle 0 = 1 ↔
        ((gentle.xyz 0).natAbs : Int) * 10 < gentle.inact_thresh_coef 0 * 255) :=
  ⟨by decide, by decide, by decide,
    (detect_INACT_iff gentle 1 (by decide) (by decide)).2.1 (by decide),
    (detect_INACT_iff gentle 0 (by decide) (by decide)).1⟩

/-! ## The classifier step on and off the tick -/

theorem land_zero_left (x : Int) : Int.land 0 x = 0 := by
  cases x with
  | ofNat n => simp [Int.land]
  | negSucc n => simp [Int.land, Nat.ldiff, Nat.bitwise]

theorem shift_xyz_eq (st : State) : shift_xyz st = { st with xyz_prev := st.xyz } := by
  have h : Function.update (Function.update (Function.update st.xyz_prev 0 (st.xyz 0)) 1
      (st.xyz 1)) 2 (st.xyz 2) = st.xyz := by
    funext i
    fin_cases i <;> simp [Function.update]
  simp only [shift_xyz, List.foldl]
  rw [h]

theorem detect_ACT_xyz (st : State) : (detect_ACT st).2.xyz = st.xyz := by
  simp only [detect_ACT]
  split_ifs <;> rfl

/-- The classifier step when the sample is classified. -/
theorem main_classifier_step_of_tick (st : State) (h : Int.land st.timer_f st.en_f ≠ 0) :
    main_classifier_step st
      = { (detect_ACT st).2 with
          en_f := lnot (detect_ACT st).1
          xyz_prev := (detect_ACT st).2.xyz
          timer_f := 0 } := by
  simp only [main_classifier_step, if_pos h, shift_xyz_eq]

/-- Claim C15: on an Armed tick (`timer_f = 1` and `en_f = 1`), whether or not a gesture is
detected, the step leaves `xyz_prev[k] = xyz[k]` for every `k`, leaves `xyz` unchanged
and clears `timer_f`. -/
theorem armed_tick_shifts_history (st : State) (ht : st.timer_f = 1) (hen : st.en_f = 1) :
    (∀ k : Fin 3, (main_classifier_step st).xyz_prev k = st.xyz k)
    ∧ (main_classifier_step st).xyz = st.xyz
    ∧ (main_classifier_step st).timer_f = 0 := by
  have h : Int.land st.timer_f st.en_f ≠ 0 := by
    rw [ht, hen]; decide
  rw [main_classifier_step_of_tick st h]
  refine ⟨fun k => ?_, ?_, rfl⟩
  · show (detect_ACT st).2.xyz k = st.xyz k
    rw [detect_ACT_xyz]
  · show (detect_ACT st).2.xyz = st.xyz
    rw [detect_ACT_xyz]

/-- Witness for C15 on two Armed ticks: one that detects a gesture (Scenario 1) and one
that does not. -/
theorem armed_tick_shifts_history_witness :
    (scenario1.timer_f = 1 ∧ scenario1.en_f = 1 ∧ (detect_ACT scenario1).1 = 1
      ∧ (main_classifier_step scenario1).xyz_prev 1 = 3000
      ∧ (main_classifier_step scenario1).timer_f = 0)
    ∧ (calm_armed.timer_f = 1 ∧ calm_armed.en_f = 1 ∧ (detect_ACT calm_armed).1 = 0
      ∧ (main_classifier_step calm_armed).xyz_prev 1 = 300
      ∧ (main_classifier_step calm_armed).timer_f = 0) :=
  ⟨⟨by decide, by decide, by decide,
      ((armed_tick_shifts_history scenario1 (by decide) (by decide)).1 1).trans (by decide),
      (armed_tick_shifts_history scenario1 (by decide) (by decide)).2.2⟩,
    ⟨by decide, by decide, by decide,
      ((armed_tick_shifts_history calm_armed (by decide) (by decide)).1 1).trans (by decide),
      (armed_tick_shifts_history calm_armed (by decide) (by decide)).2.2⟩⟩

/-- Claim C17, as stated, fails while Settling: with no tick pending, the step still calls
`wait_INACT`, which moves the counter from 5 to 6 in one state and re-arms in another. -/
theorem settling_advances_without_tick :
    (settling_quiet.timer_f = 0 ∧ settling_quiet.en_f = 0
      ∧ settling_quiet.inact_counter = 5
      ∧ (main_classifier_step settling_quiet).inact_counter = 6)
    ∧ (full_counter_quiet.timer_f = 0 ∧ full_counter_quiet.en_f = 0
      ∧ (main_classifier_step full_counter_quiet).en_f = 1
      ∧ (main_classifier_step full_counter_quiet).inact_counter = 0) := by
  decide

/-- Claim C17 (amended): with no tick pending (`timer_f = 0`) the step writes nothing; an
Armed classifier is left wholly unchanged, `detect_ACT` not being called; a Settling
classifier runs `wait_INACT` all the same, so its counter and enable flag advance
without a tick. -/
theorem no_tick_step (st : State) (ht : st.timer_f = 0) :
    (main_classifier_step st).stdout = st.stdout
    ∧ (st.en_f ≠ 0 → main_classifier_step st = st)
    ∧ (st.en_f = 0 →
        (main_classifier_step st).en_f = (wait_INACT st).1
        ∧ (main_classifier_step st).inact_counter = (wait_INACT st).2.inact_counter) := by
  have h : ¬ Int.land st.timer_f st.en_f ≠ 0 := by
    rw [ht, land_zero_left]; decide
  refine ⟨?_, ?_, ?_⟩
  · simp only [main_classifier_step, if_neg h]
    split_ifs
    · exact wait_INACT_stdout st
    · rfl
  · intro hen
    have hl : ¬ lnot st.en_f ≠ 0 := by simp [lnot, hen]
    simp only [main_classifier_step, if_neg h, if_neg hl]
  · intro hen
    rw [main_classifier_step_of_disabled st hen]
    exact ⟨rfl, rfl⟩

/-- Witness for the amended C17: the initial state, Armed with no tick pending, is left
unchanged; the Settling state with counter 5 gets counter 6. -/
theorem no_tick_step_witness :
    init.timer_f = 0 ∧ init.en_f ≠ 0 ∧ main_classifier_step init = init
    ∧ settling_quiet.timer_f = 0 ∧ settling_quiet.en_f = 0
    ∧ (main_classifier_step settling_quiet).inact_counter
        = (wait_INACT settling_quiet).2.inact_counter :=
  ⟨by decide, by decide, (no_tick_step init (by decide)).2.1 (by decide),
    by decide, by decide,
    ((no_tick_step settling_quiet (by decide)).2.2 (by decide)).2⟩

/-! ## Tilt and the reachable states -/

theorem init_act_thresh_coef_ge (i : Fin 3) (d : Fin 2) : 11 ≤ init.act_thresh_coef i d := by
  revert i d
  decide

theorem init_act_thresh_coef_le (i : Fin 3) (d : Fin 2) : init.act_thresh_coef i d ≤ 13 := by
  revert i d
  decide

/-- Claim C18: with the activation coefficients of the source, a sample whose three
readings all have magnitude at most 255 is not a gesture: `detect_ACT` returns 0 and
leaves the state, standard output included, as it was. -/
theorem tilt_is_no_gesture (st : State)
    (hcoef : st.act_thresh_coef = init.act_thresh_coef)
    (hbound : ∀ k : Fin 3, (st.xyz k).natAbs ≤ 255) :
    (detect_ACT st).1 = 0
    ∧ (detect_ACT st).2.stdout = st.stdout
    ∧ detect_ACT st = (0, st) := by
  have hb := hbound (max st)
  have hp0 := init_act_thresh_coef_ge (max st) 0
  have hp1 := init_act_thresh_coef_ge (max st) 1
  have hd : detect_ACT st = (0, st) := by
    apply detect_ACT_zero_of_within
    · intro d
      have hge := init_act_thresh_coef_ge (max st) d
      have hle := init_act_thresh_coef_le (max st) d
      rw [hcoef]
      unfold InRange32
      omega
    · rw [hcoef]; omega
    · rw [hcoef]; omega
  rw [hd]
  exact ⟨rfl, rfl, rfl⟩

/-- Witness for C18 on the sample `{255, -255, 255}`. -/
theorem tilt_is_no_gesture_witness :
    tilted.act_thresh_coef = init.act_thresh_coef
    ∧ (∀ k : Fin 3, (tilted.xyz k).natAbs ≤ 255)
    ∧ (detect_ACT tilted).1 = 0
    ∧ (detect_ACT tilted).2.stdout = tilted.stdout :=
  ⟨rfl, by decide, (tilt_is_no_gesture tilted rfl (by decide)).1,
    (tilt_is_no_gesture tilted rfl (by decide)).2.1⟩

/-- Claim C19: in every state reached from an Armed state with counter 0 by any list of
iterations, the counter lies between 0 and `INACT_SAMPLES`, the enable flag is 0 or 1,
and the counter is 0 whenever the classifier is Armed. -/
theorem reachable_counter_bounds (st0 : State) (inps : List Input)
    (harmed : st0.en_f = 1) (hzero : st0.inact_counter = 0) :
    0 ≤ (run st0 inps).inact_counter
    ∧ (run st0 inps).inact_counter ≤ INACT_SAMPLES
    ∧ ((run st0 inps).en_f = 0 ∨ (run st0 inps).en_f = 1)
    ∧ ((run st0 inps).en_f = 1 → (run st0 inps).inact_counter = 0)
    ∧ ((run st0 inps).en_f ≠ 0 → (run st0 inps).inact_counter = 0) := by
  obtain ⟨hen, h0, hL, harm⟩ :=
    run_invariant inps st0 (invariant_of_armed_zero st0 harmed hzero)
  refine ⟨h0, hL, hen, harm, fun hne => ?_⟩
  rcases hen with he | he
  · exact absurd he hne
  · exact harm he

/-- Witness for C19 from `startup`: after a sharp upward sample and two motionless ones
the classifier is Settling with counter 2. -/
theorem reachable_counter_bounds_witness :
    startup.en_f = 1 ∧ startup.inact_counter = 0
    ∧ (run startup [sharp_up, ⟨false, ![0, 0, 0]⟩, ⟨true, ![0, 0, 0]⟩]).en_f = 0
    ∧ (run startup [sharp_up, ⟨false, ![0, 0, 0]⟩, ⟨true, ![0, 0, 0]⟩]).inact_counter = 2
    ∧ 0 ≤ (run startup [sharp_up, ⟨false, ![0, 0, 0]⟩, ⟨true, ![0, 0, 0]⟩]).inact_counter
    ∧ (run startup [sharp_up, ⟨false, ![0, 0, 0]⟩, ⟨true, ![0, 0, 0]⟩]).inact_counter
        ≤ INACT_SAMPLES :=
  ⟨by decide, by decide, by decide, by decide,
    (reachable_counter_bounds startup [sharp_up, ⟨false, ![0, 0, 0]⟩, ⟨true, ![0, 0, 0]⟩]
      (by decide) (by decide)).1,
    (reachable_counter_bounds startup [sharp_up, ⟨false, ![0, 0, 0]⟩, ⟨true, ![0, 0, 0]⟩]
      (by decide) (by decide)).2.1⟩

/-! ## Repeating a calm sample while Armed -/

theorem detect_ACT_fst_congr (a b : State) (hx : a.xyz = b.xyz) (hn : a.nox = b.nox)
    (hc : a.act_thresh_coef = b.act_thresh_coef) : (detect_ACT a).1 = (detect_ACT b).1 := by
  simp only [detect_ACT, max, hx, hn, hc]
  split_ifs <;> rfl

theorem detect_ACT_of_fst_zero (st : State) (h : (detect_ACT st).1 = 0) :
    detect_ACT st = (0, st) := by
  simp only [detect_ACT] at h ⊢
  split_ifs at h ⊢
  · exact absurd h (show ¬ (1 : Int) = 0 by decide)
  · exact absurd h (show ¬ (1 : Int) = 0 by decide)
  · rfl

/-- An Armed tick on which `detect_ACT` returns 0 only shifts the history and clears the
tick flag. -/
theorem main_classifier_step_of_calm_tick (st : State) (ht : st.timer_f = 1)
    (hen : st.en_f = 1) (hd : (detect_ACT st).1 = 0) :
    main_classifier_step st = { st with xyz_prev := st.xyz, timer_f := 0 } := by
  have h : Int.land st.timer_f st.en_f ≠ 0 := by
    rw [ht, hen]; decide
  rw [main_classifier_step_of_tick st h, detect_ACT_of_fst_zero st hd]
  have hl : lnot (0 : Int) = st.en_f := by rw [hen]; rfl
  simp only [hl]

theorem main_iteration_of_calm_tick (st : State) (s : Fin 3 → Int) (hen : st.en_f = 1)
    (hd : (detect_ACT (receive st ⟨true, s⟩)).1 = 0) :
    main_iteration st ⟨true, s⟩ = { st with xyz := s, xyz_prev := s, timer_f := 0 } := by
  rw [main_iteration,
    main_classifier_step_of_calm_tick (receive st ⟨true, s⟩) rfl
      ((receive_en_f st ⟨true, s⟩).trans hen) hd]
  rfl

theorem run_replicate_calm (st : State) (s : Fin 3 → Int) (hen : st.en_f = 1)
    (hd : (detect_ACT (receive st ⟨true, s⟩)).1 = 0) (n : Nat) :
    run { st with xyz := s, xyz_prev := s, timer_f := 0 } (List.replicate n ⟨true, s⟩)
      = { st with xyz := s, xyz_prev := s, timer_f := 0 } := by
  induction n with
  | zero => rfl
  | succ n ih =>
    have hd2 : (detect_ACT (receive { st with xyz := s, xyz_prev := s, timer_f := 0 }
        ⟨true, s⟩)).1 = 0 := by
      rw [← hd]
      exact detect_ACT_fst_congr _ _ rfl rfl rfl
    have hstep := main_iteration_of_calm_tick
      { st with xyz := s, xyz_prev := s, timer_f := 0 } s hen hd2
    rw [List.replicate_succ]
    show run (main_iteration { st with xyz := s, xyz_prev := s, timer_f := 0 } ⟨true, s⟩)
      (List.replicate n ⟨true, s⟩) = _
    rw [hstep]
    exact ih

/-- Claim C13: an Armed classifier with counter 0 that is fed, on `n ≥ 1` consecutive
ticks, one and the same sample on which `detect_ACT` returns 0, ends in the state it
has after the first of these ticks; it is Armed with counter 0, and nothing has been
written after any of the ticks. -/
theorem calm_sample_idempotent (st : State) (s : Fin 3 → Int) (n : Nat)
    (harmed : st.en_f = 1) (hzero : st.inact_counter = 0)
    (hbelow : (detect_ACT (receive st ⟨true, s⟩)).1 = 0) (hn : 1 ≤ n) :
    run st (List.replicate n ⟨true, s⟩) = run st [⟨true, s⟩]
    ∧ (run st (List.replicate n ⟨true, s⟩)).en_f = 1
    ∧ (run st (List.replicate n ⟨true, s⟩)).inact_counter = 0
    ∧ (∀ m, m ≤ n → (run st (List.replicate m ⟨true, s⟩)).stdout = st.stdout) := by
  have hfirst := main_iteration_of_calm_tick st s harmed hbelow
  have hrun : ∀ m, 1 ≤ m → run st (List.replicate m ⟨true, s⟩)
      = { st with xyz := s, xyz_prev := s, timer_f := 0 } := by
    intro m hm
    obtain ⟨k, rfl⟩ : ∃ k, m = k + 1 := ⟨m - 1, by omega⟩
    rw [List.replicate_succ]
    show run (main_iteration st ⟨true, s⟩) (List.replicate k ⟨true, s⟩) = _
    rw [hfirst]
    exact run_replicate_calm st s harmed hbelow k
  have hone : run st [⟨true, s⟩] = { st with xyz := s, xyz_prev := s, timer_f := 0 } :=
    hrun 1 (le_refl 1)
  refine ⟨by rw [hrun n hn, hone], by rw [hrun n hn]; exact harmed,
    by rw [hrun n hn]; exact hzero, ?_⟩
  intro m _
  cases m with
  | zero => rfl
  | succ k => rw [hrun (k + 1) (by omega)]

/-- Witness for C13: the sample `{0, 300, 0}` on three consecutive ticks from `startup`. -/
theorem calm_sample_idempotent_witness :
    startup.en_f = 1 ∧ startup.inact_counter = 0
    ∧ (detect_ACT (receive startup ⟨true, ![0, 300, 0]⟩)).1 = 0
    ∧ run startup (List.replicate 3 ⟨true, ![0, 300, 0]⟩) = run startup [⟨true, ![0, 300, 0]⟩]
    ∧ (run startup (List.replicate 3 ⟨true, ![0, 300, 0]⟩)).en_f = 1
    ∧ (run startup (List.replicate 3 ⟨true, ![0, 300, 0]⟩)).inact_counter = 0
    ∧ (∀ m, m ≤ 3 →
        (run startup (List.replicate m ⟨true, ![0, 300, 0]⟩)).stdout = startup.stdout) :=
  ⟨by decide, by decide, by decide,
    calm_sample_idempotent startup ![0, 300, 0] 3 (by decide) (by decide) (by decide)
      (by decide)⟩

/-! ## How long the classifier can stay Settling -/

theorem abs_eq_abs_unbounded (x : Int) (h : -2147483647 ≤ x) (h2 : x ≤ 2147483647) :
    abs x = abs_unbounded x := by
  unfold abs abs_unbounded
  split_ifs
  · exact wrap32_of_inRange _ ⟨by omega, by omega⟩
  · rfl

/-- Outside the domain the two readings of the source part: the magnitude of
`-2147483648` wraps to a negative number, and `max` keeps axis 1 where `max_unbounded`
picks axis 2. -/
theorem max_differs_outside_domain :
    max int_min_axis2 = 1 ∧ max_unbounded int_min_axis2 = 2 := by
  decide

/-- Claim C20: for readings in `-32767 .. 32767` and coefficients of magnitude at most
8421504 (those of the source are at most 13), none of `abs(xyz[k])`, `xyz[k] * 10`,
`abs(xyz[k]) * 10`, `coefficient * THRESHOLD_1G` and its negation leaves the signed
32-bit range, and `max`, `min`, `detect_ACT` and `detect_INACT`, computed in 32 bits,
agree with their versions on unbounded integers. -/
theorem no_overflow_on_sensor_domain (st : State)
    (hx : ∀ k : Fin 3, -32767 ≤ st.xyz k ∧ st.xyz k ≤ 32767)
    (hact : ∀ (i : Fin 3) (d : Fin 2),
      -8421504 ≤ st.act_thresh_coef i d ∧ st.act_thresh_coef i d ≤ 8421504)
    (hinact : ∀ i : Fin 3,
      -8421504 ≤ st.inact_thresh_coef i ∧ st.inact_thresh_coef i ≤ 8421504) :
    (∀ k : Fin 3, InRange32 (abs_unbounded (st.xyz k)) ∧ InRange32 (st.xyz k * 10)
      ∧ InRange32 (abs_unbounded (st.xyz k) * 10))
    ∧ (∀ (i : Fin 3) (d : Fin 2), InRange32 (st.act_thresh_coef i d * THRESHOLD_1G)
      ∧ InRange32 (-(st.act_thresh_coef i d * THRESHOLD_1G)))
    ∧ (∀ i : Fin 3, InRange32 (st.inact_thresh_coef i * THRESHOLD_1G))
    ∧ max st = max_unbounded st
    ∧ min st = min_unbounded st
    ∧ detect_ACT st = detect_ACT_unbounded st
    ∧ (∀ i : Fin 3, detect_INACT st i = detect_INACT_unbounded st i) := by
  have habsr : ∀ k : Fin 3, 0 ≤ abs_unbounded (st.xyz k) ∧ abs_unbounded (st.xyz k) ≤ 32767 := by
    intro k
    have := hx k
    unfold abs_unbounded
    split_ifs <;> omega
  have hr1 : ∀ k : Fin 3, InRange32 (abs_unbounded (st.xyz k)) ∧ InRange32 (st.xyz k * 10)
      ∧ InRange32 (abs_unbounded (st.xyz k) * 10) := by
    intro k
    have := hx k
    have := habsr k
    unfold InRange32
    omega
  have hr2 : ∀ (i : Fin 3) (d : Fin 2), InRange32 (st.act_thresh_coef i d * THRESHOLD_1G)
      ∧ InRange32 (-(st.act_thresh_coef i d * THRESHOLD_1G)) := by
    intro i d
    have := hact i d
    unfold InRange32 THRESHOLD_1G
    omega
  have hr3 : ∀ i : Fin 3, InRange32 (st.inact_thresh_coef i * THRESHOLD_1G) := by
    intro i
    have := hinact i
    unfold InRange32 THRESHOLD_1G
    omega
  have habs : ∀ k : Fin 3, abs (st.xyz k) = abs_unbounded (st.xyz k) :=
    fun k => abs_eq_abs_unbounded _ (by have := hx k; omega) (by have := hx k; omega)
  have hmul : ∀ k : Fin 3, wrap32 (st.xyz k * 10) = st.xyz k * 10 :=
    fun k => wrap32_of_inRange _ (hr1 k).2.1
  have hamul : ∀ k : Fin 3, wrap32 (abs_unbounded (st.xyz k) * 10) = abs_unbounded (st.xyz k) * 10 :=
    fun k => wrap32_of_inRange _ (hr1 k).2.2
  have hc : ∀ (i : Fin 3) (d : Fin 2),
      wrap32 (st.act_thresh_coef i d * THRESHOLD_1G) = st.act_thresh_coef i d * THRESHOLD_1G :=
    fun i d => wrap32_of_inRange _ (hr2 i d).1
  have hcn : ∀ (i : Fin 3) (d : Fin 2),
      wrap32 (-(st.act_thresh_coef i d * THRESHOLD_1G))
        = -(st.act_thresh_coef i d * THRESHOLD_1G) :=
    fun i d => wrap32_of_inRange _ (hr2 i d).2
  have hci : ∀ i : Fin 3,
      wrap32 (st.inact_thresh_coef i * THRESHOLD_1G) = st.inact_thresh_coef i * THRESHOLD_1G :=
    fun i => wrap32_of_inRange _ (hr3 i)
  have hmax : max st = max_unbounded st := by
    simp only [max, max_unbounded, habs]
  have hmin : min st = min_unbounded st := by
    simp only [min, min_unbounded, habs]
  refine ⟨hr1, hr2, hr3, hmax, hmin, ?_, ?_⟩
  · simp only [detect_ACT, detect_ACT_unbounded, hmax, hmul, hc, hcn]
  · intro i
    simp only [detect_INACT, detect_INACT_unbounded, habs, hamul, hci]

/-- Witness for C20 on the sample `{32767, -32767, 4000}` with the coefficients of the
source: both versions of `detect_ACT` detect the downward movement on axis 1. -/
theorem no_overflow_on_sensor_domain_witness :
    (∀ k : Fin 3, -32767 ≤ extreme.xyz k ∧ extreme.xyz k ≤ 32767)
    ∧ max extreme = max_unbounded extreme
    ∧ min extreme = min_unbounded extreme
    ∧ detect_ACT extreme = detect_ACT_unbounded extreme
    ∧ (detect_ACT extreme).1 = 1
    ∧ (∀ i : Fin 3, detect_INACT extreme i = detect_INACT_unbounded extreme i) :=
  ⟨by decide,
    (no_overflow_on_sensor_domain extreme (by decide) (by decide) (by decide)).2.2.2.1,
    (no_overflow_on_sensor_domain extreme (by decide) (by decide) (by decide)).2.2.2.2.1,
    (no_overflow_on_sensor_domain extreme (by decide) (by decide) (by decide)).2.2.2.2.2.1,
    by decide,
    (no_overflow_on_sensor_domain extreme (by decide) (by decide) (by decide)).2.2.2.2.2.2⟩

end Netflicks
